import Mathlib

/-!
Verification development for the document-session proxy and cache layer of
the genai-frontend repository.

The embedded code comes from two source files:
* `src/server.js` — the Express backend: the `/hackrx/upload` handler
  (validation, ML-API indexing call, `pdfCache` write, temp-file cleanup),
  the `/hackrx/query` handler (validation, cache lookup, ML-API query call,
  answer-shape normalization), the multer `fileFilter`, and the error-message
  policy of `uploadPDFToMLAPI` / `queryPDFFromMLAPI`.
* `src/src/services/api.ts` — the client-side `analyzeDocument` batch flow
  (one upload, then sequential queries, abort on first failure).

JavaScript values flowing through these handlers are JSON values (axios
parses JSON bodies), modelled by `JsonVal`.  JavaScript truthiness is
modelled by `truthy`.  Network calls are modelled as oracle parameters of
type `Except MLError JsonVal` (transport failure or parsed response body);
filesystem effects (`fs.unlinkSync`, `fs.existsSync`) are modelled by
boolean oracles plus result fields recording whether an unlink was
attempted and whether a cleanup warning was logged.
-/

/-! JSON values and JavaScript truthiness -/

mutual

/-- A JSON value, as produced by axios parsing an ML-API response body.
Numbers are modelled as integers (no claim involves fractional values). -/
inductive JsonVal where
  | null
  | bool (b : Bool)
  | num (n : Int)
  | str (s : String)
  | arr (elems : JsonArr)
  | obj (fields : JsonObj)
deriving DecidableEq

/-- Elements of a JSON array. -/
inductive JsonArr where
  | nil
  | cons (v : JsonVal) (rest : JsonArr)
deriving DecidableEq

/-- Fields of a JSON object, in order. -/
inductive JsonObj where
  | nil
  | cons (k : String) (v : JsonVal) (rest : JsonObj)
deriving DecidableEq

end

/-- Look up a field of a JSON object (first occurrence). -/
def lookupField : JsonObj → String → Option JsonVal
  | .nil, _ => none
  | .cons k' v rest, k => if k' == k then some v else lookupField rest k

/-- JavaScript property access `v[k]`: a field of an object, `undefined`
(modelled as `none`) on non-objects.  (Access on `null` throws in
JavaScript; the one place where that can happen is handled explicitly in
`extractAnswer`.) -/
def getField : JsonVal → String → Option JsonVal
  | .obj fs, k => lookupField fs k
  | _, _ => none

/-- JavaScript truthiness of a JSON value: `null`, `false`, `0` and `""`
are falsy; every object and array is truthy. -/
def truthy : JsonVal → Bool
  | .null => false
  | .bool b => b
  | .num n => n != 0
  | .str s => s != ""
  | .arr _ => true
  | .obj _ => true

/-- Truthiness of a possibly-`undefined` value (`none` = `undefined`). -/
def truthyOpt : Option JsonVal → Bool
  | none => false
  | some v => truthy v

/-! String helpers

Hand-rolled over `List Char` so that every operation reduces
definitionally (the core `String` functions use well-founded recursion). -/

/-- Whitespace characters removed by JavaScript `String.prototype.trim`. -/
def wsChar (c : Char) : Bool :=
  c == ' ' || c == '\t' || c == '\n' || c == '\r' || c == '\x0b' || c == '\x0c'

/-- JavaScript `s.trim()`. -/
def jsTrim (s : String) : String :=
  String.mk (((s.data.dropWhile wsChar).reverse.dropWhile wsChar).reverse)

/-- JavaScript `s.toLowerCase()` (ASCII letters suffice here). -/
def lowerStr (s : String) : String :=
  String.mk (s.data.map Char.toLower)

/-- JavaScript `s.endsWith(suffix)`. -/
def suffixOfStr (suffix s : String) : Bool :=
  suffix.data.reverse.isPrefixOf s.data.reverse

/-- Whether `needle` occurs as a contiguous substring of `hay`. -/
def containsSub (hay needle : List Char) : Bool :=
  match hay with
  | [] => needle.isEmpty
  | _ :: rest => needle.isPrefixOf hay || containsSub rest needle

/-! JSON.stringify

Faithful to `JSON.stringify` with no spacing, as used by the query
handler's last-resort fallback (`src/server.js` line 269). -/

/-- Hexadecimal digit character for `\u00XX` escapes. -/
def hexDigit (n : Nat) : Char :=
  if n < 10 then Char.ofNat (48 + n) else Char.ofNat (87 + n)

/-- JSON escaping of a single character. -/
def escChar (c : Char) : List Char :=
  if c == '"' then ['\\', '"']
  else if c == '\\' then ['\\', '\\']
  else if c == '\n' then ['\\', 'n']
  else if c == '\t' then ['\\', 't']
  else if c == '\r' then ['\\', 'r']
  else if c == '\x08' then ['\\', 'b']
  else if c == '\x0c' then ['\\', 'f']
  else if c.toNat < 32 then
    ['\\', 'u', '0', '0', hexDigit (c.toNat / 16), hexDigit (c.toNat % 16)]
  else [c]

/-- A JSON string literal with quotes and escapes. -/
def quoteStr (s : String) : String :=
  String.mk ('"' :: (s.data.map escChar).flatten ++ ['"'])

/-- Decimal digits of a natural number (fuel-based so it reduces). -/
def natDigitsAux : Nat → Nat → List Char
  | 0, _ => []
  | fuel + 1, n =>
    if n < 10 then [Char.ofNat (48 + n)]
    else natDigitsAux fuel (n / 10) ++ [Char.ofNat (48 + n % 10)]

/-- Decimal rendering of an integer, as `JSON.stringify` renders numbers. -/
def intToStr : Int → String
  | .ofNat n => String.mk (natDigitsAux (n + 1) n)
  | .negSucc n => String.mk ('-' :: natDigitsAux (n + 2) (n + 1))

mutual

/-- JavaScript `JSON.stringify` on a JSON value (default, no spacing). -/
def stringify : JsonVal → String
  | .null => "null"
  | .bool b => if b then "true" else "false"
  | .num n => intToStr n
  | .str s => quoteStr s
  | .arr es => "[" ++ stringifyArr es ++ "]"
  | .obj fs => "\x7b" ++ stringifyObj fs ++ "\x7d"

/-- Comma-separated serialization of array elements. -/
def stringifyArr : JsonArr → String
  | .nil => ""
  | .cons v .nil => stringify v
  | .cons v rest => stringify v ++ "," ++ stringifyArr rest

/-- Comma-separated serialization of object fields. -/
def stringifyObj : JsonObj → String
  | .nil => ""
  | .cons k v .nil => quoteStr k ++ ":" ++ stringify v
  | .cons k v rest => quoteStr k ++ ":" ++ stringify v ++ "," ++ stringifyObj rest

end

/-! Response Normalizer

Embedding of the answer extraction in the `/hackrx/query` handler,
`src/server.js` lines 256-270:

```
let answerText;
if (mlResponse.answer && mlResponse.answer.answer) {
  answerText = mlResponse.answer.answer;
} else if (mlResponse.answer) {
  answerText = mlResponse.answer;
} else if (mlResponse.response) {
  answerText = mlResponse.response;
} else {
  answerText = typeof mlResponse === 'string' ? mlResponse : JSON.stringify(mlResponse);
}
```

`none` models the `TypeError` thrown by `mlResponse.answer` when the
response body is JSON `null` (property access on `null` throws); every
other body yields `some` extracted value, which need not be a string. -/

/-- The last-resort fallback (line 269): a string is used as-is, anything
else is serialized with `JSON.stringify`. -/
def fallbackText : JsonVal → JsonVal
  | .str s => .str s
  | v => .str (stringify v)

/-- The four-way answer extraction of the query handler. -/
def extractAnswer : JsonVal → Option JsonVal
  | .null => none
  | r =>
    let ans := getField r "answer"
    if truthyOpt ans && truthyOpt (ans.bind (fun a => getField a "answer")) then
      ans.bind (fun a => getField a "answer")
    else if truthyOpt ans then
      ans
    else if truthyOpt (getField r "response") then
      getField r "response"
    else
      some (fallbackText r)

/-! Session cache and records -/

/-- The `fileInfo` object built by the upload handler
(`src/server.js` lines 159-165) from the multer-populated `req.file`. -/
structure FileInfo where
  filename : String
  originalName : String
  mimetype : String
  size : Nat
  path : String
deriving DecidableEq

/-- The value stored in `pdfCache` (`src/server.js` lines 187-192). -/
structure SessionRecord where
  fileInfo : FileInfo
  indexedAt : String
  mlApiResponse : JsonVal
  originalFilename : String
deriving DecidableEq

/-- The in-memory `pdfCache` `Map`, keyed by the `pdf_id` value returned
by the ML API (structural equality models the `Map` SameValueZero key
comparison for the primitive keys that occur in practice). -/
abbrev Cache := List (JsonVal × SessionRecord)

/-- `Map.prototype.set`: replace in place if the key is present, else
append (preserving insertion order). -/
def cacheSet : Cache → JsonVal → SessionRecord → Cache
  | [], k, v => [(k, v)]
  | (k', v') :: rest, k, v =>
    if k' == k then (k, v) :: rest else (k', v') :: cacheSet rest k v

/-- `Map.prototype.get` (with `has` being `isSome` of this). -/
def cacheGet : Cache → JsonVal → Option SessionRecord
  | [], _ => none
  | (k', v) :: rest, k => if k' == k then some v else cacheGet rest k

/-! Multer fileFilter

Embedding of `src/server.js` lines 69-82.  The regex
`/jpeg|jpg|png|gif|pdf|txt|doc|docx|xls|xlsx|ppt|pptx/` tested against a
string succeeds exactly when one of its alternatives occurs as a
substring. -/

/-- Alternatives of the `allowedTypes` regex. -/
def allowedTypeTokens : List String :=
  ["jpeg", "jpg", "png", "gif", "pdf", "txt", "doc", "docx", "xls", "xlsx", "ppt", "pptx"]

/-- `allowedTypes.test(s)`. -/
def regexAllowedTest (s : String) : Bool :=
  allowedTypeTokens.any (fun t => containsSub s.data t.data)

/-- Suffix of a filename from its last dot, per node `path.extname`:
the dot is only sought from the second character on, so a lone leading
dot (hidden file) yields the empty extension. -/
def extnameChars : List Char → Option (List Char)
  | [] => none
  | c :: rest =>
    match extnameChars rest with
    | some e => some e
    | none => if c == '.' then some (c :: rest) else none

/-- node `path.extname` on a plain file name. -/
def extname (s : String) : String :=
  match s.data with
  | [] => ""
  | _ :: rest =>
    match extnameChars rest with
    | some e => String.mk e
    | none => ""

/-- The multer `fileFilter` predicate: the extension must match the
allowed-types regex, and the mimetype must match it or be exactly
`text/plain`.  When it fails multer rejects the request before the
handler runs and stages no file. -/
def fileFilterOk (f : FileInfo) : Bool :=
  regexAllowedTest (lowerStr (extname f.originalName)) &&
  (regexAllowedTest f.mimetype || f.mimetype == "text/plain")

/-! ML API call outcomes -/

/-- A failed axios call as seen by the `catch` blocks of
`uploadPDFToMLAPI` / `queryPDFFromMLAPI`: `respError` models
`error.response?.data?.error` (present only when the service answered
with an error body carrying that field), `message` models
`error.message` (the transport error text). -/
structure MLError where
  respError : Option String
  message : String
deriving DecidableEq

/-- The message-extraction policy `error.response?.data?.error || error.message`
(`src/server.js` lines 349 and 384): the service-reported message when
truthy, else the transport text. -/
def mlErrDetail (e : MLError) : String :=
  match e.respError with
  | some s => if s != "" then s else e.message
  | none => e.message

/-! Upload handler

Embedding of the `/hackrx/upload` route, `src/server.js` lines 148-222,
together with the error policy of `uploadPDFToMLAPI` (line 349).  The
`ml` argument is the outcome of the single outbound indexing call;
`fileOnDisk` models `fs.existsSync(req.file.path)` in the catch block;
`unlinkOk` models whether `fs.unlinkSync` succeeds when attempted. -/

/-- Terminal outcome of an upload request. -/
inductive UploadOutcome where
  | invalidFileType
  | clientError (msg : String)
  | serverError (msg : String)
  | ok (pdf_id : JsonVal) (message : String)
deriving DecidableEq

/-- Result of one upload request: the cache afterwards, the HTTP-level
outcome, whether the ML indexing call was made, whether `fs.unlinkSync`
was invoked on the staged file, and whether a cleanup warning was
logged. -/
structure UploadResult where
  cache : Cache
  outcome : UploadOutcome
  mlCalled : Bool
  unlinkAttempted : Bool
  cleanupWarned : Bool
deriving DecidableEq

/-- One `/hackrx/upload` request against the current cache. -/
def uploadStep (cache : Cache) (file : Option FileInfo) (ml : Except MLError JsonVal)
    (now : String) (fileOnDisk unlinkOk : Bool) : UploadResult :=
  match file with
  | none => ⟨cache, .clientError "No PDF file uploaded", false, false, false⟩
  | some f =>
    if !fileFilterOk f then
      ⟨cache, .invalidFileType, false, false, false⟩
    else if f.mimetype != "application/pdf" && !suffixOfStr ".pdf" (lowerStr f.originalName) then
      ⟨cache, .clientError "Only PDF files are supported", false, false, false⟩
    else
      match ml with
      | .error e =>
        let att := f.path != "" && fileOnDisk
        ⟨cache, .serverError ("ML API upload failed: " ++ mlErrDetail e), true, att, att && !unlinkOk⟩
      | .ok data =>
        match getField data "pdf_id" with
        | some pid =>
          if truthy pid then
            ⟨cacheSet cache pid ⟨f, now, data, f.originalName⟩,
             .ok pid "✅ PDF uploaded & indexed", true, true, !unlinkOk⟩
          else
            let att := f.path != "" && fileOnDisk
            ⟨cache, .serverError "ML API did not return a pdf_id in response", true, att, att && !unlinkOk⟩
        | none =>
          let att := f.path != "" && fileOnDisk
          ⟨cache, .serverError "ML API did not return a pdf_id in response", true, att, att && !unlinkOk⟩

/-! Query handler

Embedding of the `/hackrx/query` route, `src/server.js` lines 225-281,
together with the error policy of `queryPDFFromMLAPI` (line 384). -/

/-- Terminal outcome of a query request. -/
inductive QueryOutcome where
  | validationError (msg : String)
  | notFound (msg : String)
  | serverError (msg : String)
  | ok (body : JsonVal)
deriving DecidableEq

/-- Whether an outcome is the 400 parameter-validation rejection. -/
def isValidationOutcome : QueryOutcome → Bool
  | .validationError _ => true
  | _ => false

/-- Result of one query request: the outcome and whether the ML query
call was made.  The query handler never writes to `pdfCache`, so the
cache is not part of the result. -/
structure QueryResult where
  outcome : QueryOutcome
  mlCalled : Bool
deriving DecidableEq

/-- One `/hackrx/query` request against the current cache. -/
def queryStep (cache : Cache) (pdf_id question : String) (ml : Except MLError JsonVal) :
    QueryResult :=
  if pdf_id == "" then
    ⟨.validationError "pdf_id is required", false⟩
  else if question == "" || jsTrim question == "" then
    ⟨.validationError "question is required", false⟩
  else if !(cacheGet cache (.str pdf_id)).isSome then
    ⟨.notFound ("PDF with id \x27" ++ pdf_id ++
      "\x27 not found. Please upload the PDF first using /hackrx/upload."), false⟩
  else
    match ml with
    | .error e => ⟨.serverError ("ML API query failed: " ++ mlErrDetail e), true⟩
    | .ok data =>
      match extractAnswer data with
      | some answerText =>
        ⟨.ok (.obj (.cons "answer" (.obj (.cons "answer" answerText .nil)) .nil)), true⟩
      | none => ⟨.serverError "Cannot read properties of null (reading \x27answer\x27)", true⟩

/-! Traces of server operations

The reachable cache states are those produced by a sequence of requests
against an initially empty cache. -/

/-- One inbound request relevant to the cache: an upload (with its
oracle parameters), a query, or a generic chat message (whose handler
never touches `pdfCache`). -/
inductive Event where
  | upload (file : Option FileInfo) (ml : Except MLError JsonVal)
      (now : String) (fileOnDisk unlinkOk : Bool)
  | query (pdf_id question : String) (ml : Except MLError JsonVal)
  | chat (message : String)

/-- Effect of one request on the cache.  Only the upload handler writes
to `pdfCache`; the query handler only reads it and the chat handler
never mentions it. -/
def stepCache (cache : Cache) : Event → Cache
  | .upload file ml now d u => (uploadStep cache file ml now d u).cache
  | .query _ _ _ => cache
  | .chat _ => cache

/-- Cache reached after a trace of requests from the empty initial cache. -/
def runEvents (tr : List Event) : Cache :=
  tr.foldl stepCache []

/-- Whether an upload request actually reached the ML indexing call and
that call returned success with identifier `k`: the file passed the
multer filter and the handler's PDF validation, the call returned a
body, and that body's `pdf_id` field is truthy and equals `k`. -/
def uploadIndexedAs (file : Option FileInfo) (ml : Except MLError JsonVal) (k : JsonVal) :
    Bool :=
  match file, ml with
  | some f, .ok data =>
    fileFilterOk f &&
    !(f.mimetype != "application/pdf" && !suffixOfStr ".pdf" (lowerStr f.originalName)) &&
    (match getField data "pdf_id" with
     | some pid => truthy pid && pid == k
     | none => false)
  | _, _ => false

/-- Whether an event is an indexing call that returned success for
identifier `k`. -/
def eventIndexedAs (e : Event) (k : JsonVal) : Bool :=
  match e with
  | .upload file ml _ _ _ => uploadIndexedAs file ml k
  | _ => false

/-! Client-side batch flow

Embedding of `analyzeDocument` from `src/src/services/api.ts` lines
102-141: upload once via `uploadPDFToHackRX`, then loop over the
questions, querying each non-empty trimmed one via `queryPDFFromHackRX`;
any rejection propagates out of the `async` function, discarding the
`answers` collected so far.  The oracles return the typed payloads the
code reads (`uploadResult.pdf_id` and `queryResult.answer.answer`), and
the call list records every network call made, in order. -/

/-- A network call made by the client. -/
inductive ApiCall where
  | uploadCall (fileName : String)
  | queryCall (pdfId : String) (question : String)
deriving DecidableEq

/-- Whether a call is the upload call. -/
def isUploadCall : ApiCall → Bool
  | .uploadCall _ => true
  | _ => false

/-- An element of the `answers` array: `{ answer: queryResult.answer.answer }`. -/
structure AnswerItem where
  answer : String
deriving DecidableEq

/-- The successful `ChatResponse` payload fields the loop produces:
the collected answers and the filtered question list. -/
structure AnalyzeOk where
  answers : List AnswerItem
  questions : List String
deriving DecidableEq

/-- The `for (const question of questionArray)` loop of `analyzeDocument`:
skip questions that are empty or whitespace-only, query the rest in
order, abort on the first rejection. -/
def hackrxQueries (oracle : String → String → Except String String) (pdfId : String) :
    List String → List ApiCall × Except String (List AnswerItem)
  | [] => ([], .ok [])
  | q :: rest =>
    if q != "" && jsTrim q != "" then
      match oracle pdfId (jsTrim q) with
      | .error e => ([.queryCall pdfId (jsTrim q)], .error e)
      | .ok a =>
        let tail := hackrxQueries oracle pdfId rest
        (.queryCall pdfId (jsTrim q) :: tail.1,
         match tail.2 with
         | .error e => .error e
         | .ok as => .ok (⟨a⟩ :: as))
    else hackrxQueries oracle pdfId rest

/-- The whole `analyzeDocument` flow: one upload, then the query loop;
an upload rejection propagates immediately. -/
def analyzeDocument (uploadOracle : Except String String)
    (queryOracle : String → String → Except String String)
    (fileName : String) (questions : List String) :
    List ApiCall × Except String AnalyzeOk :=
  match uploadOracle with
  | .error e => ([.uploadCall fileName], .error e)
  | .ok pdfId =>
    let res := hackrxQueries queryOracle pdfId questions
    match res.2 with
    | .error e => (.uploadCall fileName :: res.1, .error e)
    | .ok answers =>
      (.uploadCall fileName :: res.1,
       .ok ⟨answers, questions.filter (fun q => q != "" && jsTrim q != "")⟩)

/-- The questions actually queried by the loop: the non-empty trimmed
ones, in input order. -/
def trimmedValid (qs : List String) : List String :=
  (qs.filter (fun q => q != "" && jsTrim q != "")).map jsTrim

theorem cacheGet_cacheSet_isSome (c : Cache) (k k' : JsonVal) (v : SessionRecord) :
    (cacheGet (cacheSet c k v) k').isSome = ((k == k') || (cacheGet c k').isSome) := by
  induction c with
  | nil =>
    by_cases h : k = k' <;> simp [cacheSet, cacheGet, h]
  | cons hd tl ih =>
    obtain ⟨k0, v0⟩ := hd
    by_cases h0 : k0 = k
    · subst h0
      by_cases h1 : k0 = k' <;> simp [cacheSet, cacheGet, h1]
    · by_cases h1 : k0 = k'
      · have h2 : ¬k' = k := fun hh => h0 (h1.trans hh)
        simp [cacheSet, cacheGet, h0, h1, h2, ih]
      · simp [cacheSet, cacheGet, h0, h1, ih]

theorem cacheGet_cacheSet_same (c : Cache) (k : JsonVal) (v : SessionRecord) :
    cacheGet (cacheSet c k v) k = some v := by
  induction c with
  | nil => simp [cacheSet, cacheGet]
  | cons hd tl ih =>
    obtain ⟨k0, v0⟩ := hd
    by_cases h0 : k0 = k <;> simp [cacheSet, cacheGet, h0, ih]

theorem uploadStep_cache_isSome (c : Cache) (file : Option FileInfo)
    (ml : Except MLError JsonVal) (now : String) (d u : Bool) (k : JsonVal) :
    (cacheGet (uploadStep c file ml now d u).cache k).isSome
      = (uploadIndexedAs file ml k || (cacheGet c k).isSome) := by
  cases file with
  | none => simp [uploadStep, uploadIndexedAs]
  | some f =>
    by_cases hf : fileFilterOk f
    · by_cases hv : (f.mimetype != "application/pdf" && !suffixOfStr ".pdf" (lowerStr f.originalName)) = true
      · cases ml <;> simp [uploadStep, uploadIndexedAs, hf, hv]
      · cases ml with
        | error e => simp [uploadStep, uploadIndexedAs, hf, hv]
        | ok data =>
          cases hp : getField data "pdf_id" with
          | none => simp [uploadStep, uploadIndexedAs, hf, hv, hp]
          | some pid =>
            by_cases ht : truthy pid
            · simp [uploadStep, uploadIndexedAs, hf, hv, hp, ht, cacheGet_cacheSet_isSome]
            · simp [uploadStep, uploadIndexedAs, hf, hv, hp, ht]
    · cases ml <;> simp [uploadStep, uploadIndexedAs, hf]

theorem runEvents_aux (tr : List Event) (c : Cache) (k : JsonVal) :
    (cacheGet (tr.foldl stepCache c) k).isSome
      = (tr.any (fun e => eventIndexedAs e k) || (cacheGet c k).isSome) := by
  induction tr generalizing c with
  | nil => simp
  | cons e rest ih =>
    cases e with
    | upload file ml now d u =>
      simp [stepCache, ih, eventIndexedAs, uploadStep_cache_isSome,
        Bool.or_assoc, Bool.or_comm, Bool.or_left_comm]
    | query p q ml => simp [stepCache, ih, eventIndexedAs]
    | chat m => simp [stepCache, ih, eventIndexedAs]

/-- C2: a SessionRecord is present in the cache after a trace of requests
precisely when some upload event in the trace made an indexing call that
returned success with that identifier; queries and chat requests never
insert into the cache. -/
theorem c2_cache_iff_index_success (tr : List Event) (k : JsonVal) :
    (cacheGet (runEvents tr) k).isSome = tr.any (fun e => eventIndexedAs e k) := by
  simpa [cacheGet] using runEvents_aux tr [] k

/-- C3: a query for an identifier for which no successful indexing call
ever happened is answered with the 404 not-found outcome whose message
names the identifier and points the caller at the upload endpoint, the
ML query service is not called, and the outcome is not the 500
upstream-error outcome (a distinct constructor). -/
theorem c3_unknown_identifier_not_found (tr : List Event) (pdf_id question : String)
    (ml : Except MLError JsonVal)
    (hid : pdf_id ≠ "") (hq : jsTrim question ≠ "")
    (hnone : tr.any (fun e => eventIndexedAs e (.str pdf_id)) = false) :
    queryStep (runEvents tr) pdf_id question ml
      = ⟨.notFound ("PDF with id \x27" ++ pdf_id ++
          "\x27 not found. Please upload the PDF first using /hackrx/upload."), false⟩ := by
  have hmiss : (cacheGet (runEvents tr) (.str pdf_id)).isSome = false := by
    simpa [cacheGet, hnone] using runEvents_aux tr [] (.str pdf_id)
  have hq0 : question ≠ "" := by
    intro h
    exact hq (by rw [h]; rfl)
  simp [queryStep, hid, hq, hq0, hmiss]

/-- C3 witness: querying `does-not-exist` against the empty trace. -/
theorem c3_unknown_identifier_not_found_witness :
    queryStep (runEvents []) "does-not-exist" "What is covered?" (.ok .null)
      = ⟨.notFound "PDF with id \x27does-not-exist\x27 not found. Please upload the PDF first using /hackrx/upload.", false⟩ :=
  c3_unknown_identifier_not_found [] "does-not-exist" "What is covered?" (.ok .null)
    (by decide) (by decide) (by decide)

/-- C4: an indexing call that succeeds at the transport level but whose
response body has no `pdf_id` field makes the upload fail with the 500
contract-violation error, and the cache is left unchanged. -/
theorem c4_missing_pdf_id_is_index_error (c : Cache) (f : FileInfo) (data : JsonVal)
    (now : String) (d u : Bool)
    (hf : fileFilterOk f = true)
    (hv : (f.mimetype != "application/pdf" && !suffixOfStr ".pdf" (lowerStr f.originalName)) = false)
    (hp : getField data "pdf_id" = none) :
    uploadStep c (some f) (.ok data) now d u
      = ⟨c, .serverError "ML API did not return a pdf_id in response", true,
          f.path != "" && d, (f.path != "" && d) && !u⟩ := by
  simp [uploadStep, hf, hv, hp]

/-- C4 witness: a valid PDF upload whose indexing response is `{message:"ok"}`. -/
theorem c4_missing_pdf_id_is_index_error_witness :
    uploadStep [] (some ⟨"file-1", "policy.pdf", "application/pdf", 2048, "uploads/file-1"⟩)
        (.ok (.obj (.cons "message" (.str "ok") .nil))) "t0" true true
      = ⟨[], .serverError "ML API did not return a pdf_id in response", true, true, false⟩ :=
  c4_missing_pdf_id_is_index_error [] ⟨"file-1", "policy.pdf", "application/pdf", 2048, "uploads/file-1"⟩
    (.obj (.cons "message" (.str "ok") .nil)) "t0" true true rfl rfl rfl

/-- C5: a successful upload whose identifier is already cached replaces
the old record with a record built entirely from the new request (new
file metadata, new timestamp, new raw response) and still reports
success; nothing of the old record survives. -/
theorem c5_reupload_overwrites (c : Cache) (f : FileInfo) (data pid : JsonVal)
    (old : SessionRecord) (now : String) (d u : Bool)
    (hf : fileFilterOk f = true)
    (hv : (f.mimetype != "application/pdf" && !suffixOfStr ".pdf" (lowerStr f.originalName)) = false)
    (hp : getField data "pdf_id" = some pid) (ht : truthy pid = true)
    (_hold : cacheGet c pid = some old) :
    (uploadStep c (some f) (.ok data) now d u).outcome = .ok pid "✅ PDF uploaded & indexed"
    ∧ cacheGet (uploadStep c (some f) (.ok data) now d u).cache pid
        = some ⟨f, now, data, f.originalName⟩ := by
  constructor <;> simp [uploadStep, hf, hv, hp, ht, cacheGet_cacheSet_same]

/-- C5 witness: re-uploading over an existing record for `abc123`. -/
theorem c5_reupload_overwrites_witness :
    (uploadStep [(.str "abc123", ⟨⟨"old-f", "old.pdf", "application/pdf", 1, "uploads/old-f"⟩, "t0", .null, "old.pdf"⟩)]
        (some ⟨"file-2", "new.pdf", "application/pdf", 2048, "uploads/file-2"⟩)
        (.ok (.obj (.cons "pdf_id" (.str "abc123") .nil))) "t1" true true).outcome
      = .ok (.str "abc123") "✅ PDF uploaded & indexed"
    ∧ cacheGet (uploadStep [(.str "abc123", ⟨⟨"old-f", "old.pdf", "application/pdf", 1, "uploads/old-f"⟩, "t0", .null, "old.pdf"⟩)]
        (some ⟨"file-2", "new.pdf", "application/pdf", 2048, "uploads/file-2"⟩)
        (.ok (.obj (.cons "pdf_id" (.str "abc123") .nil))) "t1" true true).cache (.str "abc123")
      = some ⟨⟨"file-2", "new.pdf", "application/pdf", 2048, "uploads/file-2"⟩, "t1",
          .obj (.cons "pdf_id" (.str "abc123") .nil), "new.pdf"⟩ :=
  c5_reupload_overwrites _ _ _ _ _ _ _ _ rfl rfl rfl rfl rfl


theorem trimmedValid_cons_pos (q : String) (rest : List String)
    (hc : (q != "" && jsTrim q != "") = true) :
    trimmedValid (q :: rest) = jsTrim q :: trimmedValid rest := by
  simp [trimmedValid, List.filter_cons, hc]

theorem trimmedValid_cons_neg (q : String) (rest : List String)
    (hc : (q != "" && jsTrim q != "") = false) :
    trimmedValid (q :: rest) = trimmedValid rest := by
  simp [trimmedValid, List.filter_cons, hc]

theorem hackrxQueries_fail (oracle : String → String → Except String String)
    (p : String) (qs pre : List String) (bad : String) (post : List String) (e : String)
    (hsplit : trimmedValid qs = pre ++ bad :: post)
    (hok : ∀ q ∈ pre, ∃ a, oracle p q = .ok a)
    (hbad : oracle p bad = .error e) :
    hackrxQueries oracle p qs
      = (pre.map (ApiCall.queryCall p) ++ [ApiCall.queryCall p bad], .error e) := by
  induction qs generalizing pre with
  | nil => simp [trimmedValid] at hsplit
  | cons q rest ih =>
    by_cases hc : (q != "" && jsTrim q != "") = true
    · rw [trimmedValid_cons_pos q rest hc] at hsplit
      cases pre with
      | nil =>
        simp only [List.nil_append] at hsplit
        obtain ⟨hq, -⟩ := List.cons_eq_cons.mp hsplit
        subst hq
        simp [hackrxQueries, hc, hbad]
      | cons p0 pre' =>
        simp only [List.cons_append] at hsplit
        obtain ⟨hq0, htail⟩ := List.cons_eq_cons.mp hsplit
        subst hq0
        obtain ⟨a, ha⟩ := hok (jsTrim q) (by simp)
        have hrec := ih pre' htail (fun q' hq' => hok q' (by simp [hq']))
        simp [hackrxQueries, hc, ha, hrec]
    · rw [trimmedValid_cons_neg q rest (by simpa using hc)] at hsplit
      have hrec := ih pre hsplit hok
      simp [hackrxQueries, hc, hrec]

theorem hackrxQueries_ok (oracle : String → String → Except String String)
    (p : String) (ansF : String → String) (qs : List String)
    (hok : ∀ q ∈ trimmedValid qs, oracle p q = .ok (ansF q)) :
    hackrxQueries oracle p qs
      = ((trimmedValid qs).map (ApiCall.queryCall p),
         .ok ((trimmedValid qs).map (fun q => ⟨ansF q⟩))) := by
  induction qs with
  | nil => simp [hackrxQueries, trimmedValid]
  | cons q rest ih =>
    by_cases hc : (q != "" && jsTrim q != "") = true
    · have hmem := trimmedValid_cons_pos q rest hc
      have h1 : oracle p (jsTrim q) = .ok (ansF (jsTrim q)) := hok _ (by rw [hmem]; simp)
      have h2 := ih (fun q' hq' => hok q' (by rw [hmem]; simp [hq']))
      simp [hackrxQueries, hc, h1, h2, hmem]
    · have hmem := trimmedValid_cons_neg q rest (by simpa using hc)
      have h2 := ih (fun q' hq' => hok q' (by rw [hmem]; exact hq'))
      simp [hackrxQueries, hc, h2, hmem]

theorem hackrxQueries_no_upload (oracle : String → String → Except String String)
    (p : String) (qs : List String) :
    ∀ call ∈ (hackrxQueries oracle p qs).1, isUploadCall call = false := by
  induction qs with
  | nil => simp [hackrxQueries]
  | cons q rest ih =>
    by_cases hc : (q != "" && jsTrim q != "") = true
    · cases ho : oracle p (jsTrim q) with
      | error e => simp [hackrxQueries, hc, ho, isUploadCall]
      | ok a =>
        simp only [hackrxQueries, hc, ho]
        intro call hcall
        rcases List.mem_cons.mp hcall with h | h
        · subst h; rfl
        · exact ih call h
    · simpa [hackrxQueries, hc] using ih

/-- C6: the client batch flow uploads exactly once and then queries the
non-empty trimmed questions sequentially in input order; a rejection on
one question stops the loop there (later questions are never queried)
and the overall result is exactly that rejection, with no partial answer
list; when every query succeeds the answers come back in input order. -/
theorem c6_analyze_batch_semantics (pdfId fileName : String)
    (oracle : String → String → Except String String) (qs : List String) :
    (∀ pre bad post e, trimmedValid qs = pre ++ bad :: post →
        (∀ q ∈ pre, ∃ a, oracle pdfId q = .ok a) →
        oracle pdfId bad = .error e →
        analyzeDocument (.ok pdfId) oracle fileName qs
          = (ApiCall.uploadCall fileName ::
              (pre.map (ApiCall.queryCall pdfId) ++ [ApiCall.queryCall pdfId bad]),
             .error e))
    ∧ (∀ ansF : String → String,
        (∀ q ∈ trimmedValid qs, oracle pdfId q = .ok (ansF q)) →
        analyzeDocument (.ok pdfId) oracle fileName qs
          = (ApiCall.uploadCall fileName :: (trimmedValid qs).map (ApiCall.queryCall pdfId),
             .ok ⟨(trimmedValid qs).map (fun q => ⟨ansF q⟩),
                  qs.filter (fun q => q != "" && jsTrim q != "")⟩))
    ∧ (∀ up : Except String String,
        (analyzeDocument up oracle fileName qs).1.countP (fun c => isUploadCall c) = 1) := by
  refine ⟨?_, ?_, ?_⟩
  · intro pre bad post e hsplit hok hbad
    have h := hackrxQueries_fail oracle pdfId qs pre bad post e hsplit hok hbad
    simp [analyzeDocument, h]
  · intro ansF hok
    have h := hackrxQueries_ok oracle pdfId ansF qs hok
    simp [analyzeDocument, h]
  · intro up
    cases up with
    | error e => simp [analyzeDocument, isUploadCall]
    | ok pid =>
      cases hq : (hackrxQueries oracle pid qs).2 <;>
        simp [analyzeDocument, hq, List.countP_cons, isUploadCall] <;>
        (intro c hc; simpa [isUploadCall] using hackrxQueries_no_upload oracle pid qs c hc)

/-- C6 witness: a two-question batch where the stub rejects `Q2`: the
result is the `Q2` error and `Q1`'s answer is not returned. -/
theorem c6_analyze_batch_semantics_witness :
    analyzeDocument (.ok "abc")
        (fun _ q => if q == "Q2" then .error "boom" else .ok ("ans-" ++ q))
        "f.pdf" ["Q1", "Q2"]
      = ([.uploadCall "f.pdf", .queryCall "abc" "Q1", .queryCall "abc" "Q2"], .error "boom") := by
  have h := (c6_analyze_batch_semantics "abc" "f.pdf"
      (fun _ q => if q == "Q2" then .error "boom" else .ok ("ans-" ++ q)) ["Q1", "Q2"]).1
      ["Q1"] "Q2" [] "boom" rfl
      (by intro q hq; simp at hq; subst hq; exact ⟨"ans-Q1", rfl⟩) rfl
  simpa using h

/-- C7 counterexample: for the whitespace-only identifier `" "` (empty
after trimming) the query handler does not return a 400 validation
error as the claim requires; `!pdf_id` only tests the untrimmed value,
so the request passes validation and is answered with the 404 not-found
outcome instead. -/
theorem c7_whitespace_identifier_counterexample :
    queryStep [] " " "What is covered?" (.ok .null)
      = ⟨.notFound "PDF with id \x27 \x27 not found. Please upload the PDF first using /hackrx/upload.", false⟩
    ∧ isValidationOutcome (queryStep [] " " "What is covered?" (.ok .null)).outcome = false :=
  ⟨rfl, rfl⟩

/-- C7 (amended): if the identifier is empty (with no trimming — the code
tests the raw value), or the question is empty after trimming, the query
fails with the 400 validation outcome and no ML call is made. -/
theorem c7_empty_params_validation (cache : Cache) (pdf_id question : String)
    (ml : Except MLError JsonVal)
    (h : pdf_id = "" ∨ jsTrim question = "") :
    queryStep cache pdf_id question ml
      = ⟨.validationError (if pdf_id == "" then "pdf_id is required" else "question is required"),
         false⟩ := by
  rcases h with h | h
  · subst h
    simp [queryStep]
  · by_cases hid : pdf_id = ""
    · subst hid
      simp [queryStep]
    · simp [queryStep, hid, h]

/-- C7 witness: a whitespace-only question is rejected locally. -/
theorem c7_empty_params_validation_witness :
    queryStep [] "abc123" "   " (.ok .null)
      = ⟨.validationError "question is required", false⟩ := by
  have h := c7_empty_params_validation [] "abc123" "   " (.ok .null) (Or.inr rfl)
  simpa using h

/-- C8 counterexample: a file with declared type `text/plain` but name
`doc.pdf` does not both-indicate a PDF, yet the upload is not rejected:
the indexing call is made and succeeds (the handler's check at
`src/server.js` line 155 rejects only when mimetype and extension BOTH
fail to indicate PDF, and this particular file also passes the multer
filter). -/
theorem c8_mixed_type_counterexample :
    (uploadStep [] (some ⟨"file-1", "doc.pdf", "text/plain", 2048, "uploads/file-1"⟩)
        (.ok (.obj (.cons "pdf_id" (.str "abc123") .nil))) "t0" true true).mlCalled = true
    ∧ (uploadStep [] (some ⟨"file-1", "doc.pdf", "text/plain", 2048, "uploads/file-1"⟩)
        (.ok (.obj (.cons "pdf_id" (.str "abc123") .nil))) "t0" true true).outcome
      = .ok (.str "abc123") "✅ PDF uploaded & indexed" :=
  ⟨rfl, rfl⟩

/-- C8 (amended): the upload is rejected before any network call when no
file was supplied, or when neither the declared media type is
`application/pdf` nor the lowercased filename ends in `.pdf` (rejected
either by the multer file filter or by the handler's 400); the cache is
untouched. -/
theorem c8_neither_pdf_rejected (cache : Cache) (file : Option FileInfo)
    (ml : Except MLError JsonVal) (now : String) (d u : Bool)
    (h : file = none ∨ ∃ f, file = some f ∧ f.mimetype ≠ "application/pdf"
          ∧ suffixOfStr ".pdf" (lowerStr f.originalName) = false) :
    (uploadStep cache file ml now d u).mlCalled = false
    ∧ (uploadStep cache file ml now d u).cache = cache
    ∧ ((uploadStep cache file ml now d u).outcome = .clientError "No PDF file uploaded"
       ∨ (uploadStep cache file ml now d u).outcome = .invalidFileType
       ∨ (uploadStep cache file ml now d u).outcome = .clientError "Only PDF files are supported") := by
  rcases h with h | ⟨f, hfile, hm, hs⟩
  · subst h
    exact ⟨rfl, rfl, Or.inl rfl⟩
  · subst hfile
    by_cases hf : fileFilterOk f
    · have hcond : (f.mimetype != "application/pdf" && !suffixOfStr ".pdf" (lowerStr f.originalName)) = true := by
        simp [hm, hs]
      refine ⟨?_, ?_, Or.inr (Or.inr ?_)⟩ <;> simp [uploadStep, hf, hcond]
    · refine ⟨?_, ?_, Or.inr (Or.inl ?_)⟩ <;> simp [uploadStep, hf]

/-- C8 witness: a zip file is rejected with no ML call. -/
theorem c8_neither_pdf_rejected_witness :
    (uploadStep [] (some ⟨"file-1", "x.zip", "application/zip", 10, "uploads/file-1"⟩)
        (.ok .null) "t0" true true).mlCalled = false
    ∧ (uploadStep [] (some ⟨"file-1", "x.zip", "application/zip", 10, "uploads/file-1"⟩)
        (.ok .null) "t0" true true).cache = []
    ∧ ((uploadStep [] (some ⟨"file-1", "x.zip", "application/zip", 10, "uploads/file-1"⟩)
        (.ok .null) "t0" true true).outcome = .clientError "No PDF file uploaded"
       ∨ (uploadStep [] (some ⟨"file-1", "x.zip", "application/zip", 10, "uploads/file-1"⟩)
        (.ok .null) "t0" true true).outcome = .invalidFileType
       ∨ (uploadStep [] (some ⟨"file-1", "x.zip", "application/zip", 10, "uploads/file-1"⟩)
        (.ok .null) "t0" true true).outcome = .clientError "Only PDF files are supported") :=
  c8_neither_pdf_rejected [] (some ⟨"file-1", "x.zip", "application/zip", 10, "uploads/file-1"⟩)
    (.ok .null) "t0" true true
    (Or.inr ⟨⟨"file-1", "x.zip", "application/zip", 10, "uploads/file-1"⟩, rfl, by decide, rfl⟩)

/-- C9 counterexample: a staged temporary file is NOT released on every
terminal path: a `text/plain` file named `notes.txt` passes the multer
file filter (so it is written to the uploads directory) but the handler
rejects it with the 400 non-PDF outcome and never attempts the unlink. -/
theorem c9_validation_path_no_cleanup :
    fileFilterOk ⟨"file-1", "notes.txt", "text/plain", 100, "uploads/file-1"⟩ = true
    ∧ uploadStep [] (some ⟨"file-1", "notes.txt", "text/plain", 100, "uploads/file-1"⟩)
        (.ok .null) "t0" true true
      = ⟨[], .clientError "Only PDF files are supported", false, false, false⟩ :=
  ⟨rfl, rfl⟩

/-- C9 (amended): when the indexing call fails, the upload handler
attempts the best-effort unlink of the staged file (guarded by its
existence check), propagates the indexing error carrying the service's
reported message when present and truthy, else the transport text, and
leaves the cache unchanged; an unlink failure is logged as a warning
only and changes neither outcome nor cache; the successful path also
always attempts the unlink.  (The pre-network 400 validation rejection,
per the counterexample, is the one terminal path with no cleanup.) -/
theorem c9_cleanup_and_error_propagation (cache : Cache) (f : FileInfo)
    (now : String) (d : Bool)
    (hf : fileFilterOk f = true)
    (hv : (f.mimetype != "application/pdf" && !suffixOfStr ".pdf" (lowerStr f.originalName)) = false) :
    (∀ (e : MLError) (u : Bool),
      (uploadStep cache (some f) (.error e) now d u).outcome
          = .serverError ("ML API upload failed: " ++ mlErrDetail e)
        ∧ (uploadStep cache (some f) (.error e) now d u).cache = cache
        ∧ (uploadStep cache (some f) (.error e) now d u).unlinkAttempted
            = (f.path != "" && d)
        ∧ (uploadStep cache (some f) (.error e) now d true).outcome
            = (uploadStep cache (some f) (.error e) now d false).outcome
        ∧ (uploadStep cache (some f) (.error e) now d true).cleanupWarned = false
        ∧ (uploadStep cache (some f) (.error e) now d false).cleanupWarned
            = (f.path != "" && d))
    ∧ (∀ (s m : String), s ≠ "" → mlErrDetail ⟨some s, m⟩ = s)
    ∧ (∀ m : String, mlErrDetail ⟨none, m⟩ = m)
    ∧ (∀ (data pid : JsonVal) (u : Bool), getField data "pdf_id" = some pid → truthy pid = true →
        (uploadStep cache (some f) (.ok data) now d u).unlinkAttempted = true
        ∧ (uploadStep cache (some f) (.ok data) now d true).outcome
            = (uploadStep cache (some f) (.ok data) now d false).outcome) := by
  refine ⟨?_, ?_, ?_, ?_⟩
  · intro e u
    refine ⟨?_, ?_, ?_, ?_, ?_, ?_⟩ <;> simp [uploadStep, hf, hv]
  · intro s m hs
    simp [mlErrDetail, hs]
  · intro m
    simp [mlErrDetail]
  · intro data pid u hp ht
    refine ⟨?_, ?_⟩ <;> simp [uploadStep, hf, hv, hp, ht]

/-- C9 witness: an indexing failure with a service-reported message on a
staged PDF, with the unlink itself failing: the outcome still carries
the service message. -/
theorem c9_cleanup_and_error_propagation_witness :
    (uploadStep [] (some ⟨"file-1", "policy.pdf", "application/pdf", 2048, "uploads/file-1"⟩)
        (.error ⟨some "indexing exploded", "Request failed with status code 500"⟩)
        "t0" true false).outcome
      = .serverError "ML API upload failed: indexing exploded" :=
  ((c9_cleanup_and_error_propagation []
      ⟨"file-1", "policy.pdf", "application/pdf", 2048, "uploads/file-1"⟩
      "t0" true rfl rfl).1
    ⟨some "indexing exploded", "Request failed with status code 500"⟩ false).1

/-- C1 counterexample: the response `{answer:{answer:""}}` has the nested
field `answer.answer` present, but its value `""` is not used: `""` is
falsy, so rule 1 is skipped and rule 2 returns the whole inner object
(not even a string), refuting the field-presence reading of the
precedence. -/
theorem c1_presence_counterexample :
    extractAnswer (.obj (.cons "answer" (.obj (.cons "answer" (.str "") .nil)) .nil))
      = some (.obj (.cons "answer" (.str "") .nil))
    ∧ extractAnswer (.obj (.cons "answer" (.obj (.cons "answer" (.str "") .nil)) .nil))
      ≠ some (.str "") :=
  ⟨rfl, by decide⟩

/-- C1 (amended): the extraction precedence holds with truthiness in
place of presence: a truthy nested `answer.answer` wins, else a truthy
`answer`, else a truthy `response`, else the serialize-to-text fallback
(a response carrying one of these fields is an object); and the three
round-trips on `"X"` yield exactly `"X"`. -/
theorem c1_normalizer_truthy_precedence :
    (extractAnswer (.obj (.cons "answer" (.obj (.cons "answer" (.str "X") .nil)) .nil))
        = some (.str "X")
     ∧ extractAnswer (.obj (.cons "answer" (.str "X") .nil)) = some (.str "X")
     ∧ extractAnswer (.obj (.cons "response" (.str "X") .nil)) = some (.str "X"))
    ∧ (∀ (fs : JsonObj) (a aa : JsonVal), getField (.obj fs) "answer" = some a →
        truthy a = true → getField a "answer" = some aa → truthy aa = true →
        extractAnswer (.obj fs) = some aa)
    ∧ (∀ (fs : JsonObj) (a : JsonVal), getField (.obj fs) "answer" = some a →
        truthy a = true → truthyOpt (getField a "answer") = false →
        extractAnswer (.obj fs) = some a)
    ∧ (∀ (fs : JsonObj) (v : JsonVal), truthyOpt (getField (.obj fs) "answer") = false →
        getField (.obj fs) "response" = some v → truthy v = true →
        extractAnswer (.obj fs) = some v)
    ∧ (∀ r : JsonVal, r ≠ .null → truthyOpt (getField r "answer") = false →
        truthyOpt (getField r "response") = false → extractAnswer r = some (fallbackText r)) := by
  refine ⟨⟨rfl, rfl, rfl⟩, ?_, ?_, ?_, ?_⟩
  · intro fs a aa h1 h2 h3 h4
    simp only [extractAnswer]
    rw [h1]
    simp [truthyOpt, h2, h3, h4]
  · intro fs a h1 h2 h3
    simp only [extractAnswer]
    rw [h1]
    simp only [Option.some_bind]
    rw [h3]
    simp [truthyOpt, h2]
  · intro fs v h1 h2 h3
    simp only [extractAnswer]
    rw [h1, h2]
    simp [truthyOpt, h3]
  · intro r h0 h1 h2
    cases r with
    | null => exact absurd rfl h0
    | bool b => simp [extractAnswer, getField, truthyOpt]
    | num n => simp [extractAnswer, getField, truthyOpt]
    | str s => simp [extractAnswer, getField, truthyOpt, fallbackText]
    | arr es => simp [extractAnswer, getField, truthyOpt]
    | obj fs =>
      simp only [extractAnswer]
      rw [h1, h2]
      simp

/-- C1 witness: the nested-answer rule applied to the upstream shape
`{answer:{answer:"Coverage X"}}`. -/
theorem c1_normalizer_truthy_precedence_witness :
    extractAnswer (.obj (.cons "answer" (.obj (.cons "answer" (.str "Coverage X") .nil)) .nil))
      = some (.str "Coverage X") :=
  c1_normalizer_truthy_precedence.2.1 _ _ _ rfl rfl rfl rfl

/-- C10: the shape tests are truthiness tests: whenever the `answer`
field is present but falsy, rules 1 and 2 are skipped and the result
comes from the `response` field or, failing that, from serializing the
whole response; in particular normalizing `{answer:""}` yields the
serialized object, not the empty string. -/
theorem c10_truthiness_skips_falsy_answer :
    (∀ (fs : JsonObj) (v : JsonVal), getField (.obj fs) "answer" = some v →
      truthy v = false →
      extractAnswer (.obj fs)
        = (if truthyOpt (getField (.obj fs) "response") then getField (.obj fs) "response"
           else some (fallbackText (.obj fs))))
    ∧ extractAnswer (.obj (.cons "answer" (.str "") .nil))
        = some (.str "\x7b\"answer\":\"\"\x7d")
    ∧ extractAnswer (.obj (.cons "answer" (.str "") .nil)) ≠ some (.str "") := by
  refine ⟨?_, rfl, by decide⟩
  intro fs v h1 h2
  simp only [extractAnswer]
  rw [h1]
  simp [truthyOpt, h2]

/-- C10 witness: `{answer:"", response:"R"}` falls through to the
`response` field. -/
theorem c10_truthiness_skips_falsy_answer_witness :
    extractAnswer (.obj (.cons "answer" (.str "") (.cons "response" (.str "R") .nil)))
      = some (.str "R") := by
  have h := c10_truthiness_skips_falsy_answer.1
      (.cons "answer" (.str "") (.cons "response" (.str "R") .nil)) (.str "") rfl rfl
  simpa using h
